import Mathlib

/-!
Verification of the secret-resolution behaviour of src/app/app.py.

The program is a single Flask route plus one helper:

  def ssm_secret(path, prefix = "ssm_sdk://"):
      client = boto3.client('ssm')
      prefix_len = len(prefix)
      if os.environ['SECRET_SDK'][0:prefix_len] == prefix:
          result = client.get_parameter(
              Name=os.environ['SECRET_SDK'][prefix_len:],
              WithDecryption=True)
          secret = result['Parameter']['Value']
      else:
          secret = os.environ['SECRET_SDK']
      return secret

  @app.route("/")
  def hello():
      secret = ssm_secret(os.environ['SECRET_SDK'], os.environ['SECRET_SDK_PREFIX'])
      section1 = "SDK decrypted: " + secret
      section2 = "Ssn-env decrypted: " + os.environ['SECRET']
      return section1 + section2

The embedding below models the process environment and the remote SSM
parameter store as partial maps, a failed environment read as a
MissingConfiguration error (KeyError in Python) and a failed get_parameter
call as a LookupFailure error. Every function additionally returns the
chronological list of parameter names it passed to get_parameter, so that
"no remote lookup is performed" is expressible as an empty list. Python
slicing s[0:n] and s[n:] clamps out-of-range indices, exactly like
String.take and String.drop. The boto3 client construction on line 8 has
no observable effect in this model and is not represented. The source
contains no write to os.environ and no write to the parameter store, so
the process-wide state a call can see is passed in and never produced as
output; the World wrapper below makes that reading explicit.
-/

set_option linter.unusedVariables false

namespace App

/-- The process environment, os.environ: a partial map from variable names
to values. A name mapped to none is an unset variable. -/
abbrev Env := String → Option String

/-- The remote SSM parameter store: a partial map from parameter names to
decrypted values. A name mapped to none stands for any failing lookup
(parameter not found, access denied, transport error), collapsed to one
failure mode. -/
abbrev Store := String → Option String

/-- The two failure kinds of the spec error taxonomy: MissingConfiguration
(a required environment variable is absent, a KeyError in the source) and
LookupFailure (the remote get_parameter call fails). -/
inductive AppError where
  | missingConfiguration (varName : String)
  | lookupFailure (paramName : String)
  deriving DecidableEq, Repr

instance {e a : Type} [DecidableEq e] [DecidableEq a] : DecidableEq (Except e a) := fun x y =>
  match x, y with
  | Except.ok u, Except.ok v => decidable_of_iff (u = v) (by simp)
  | Except.error u, Except.error v => decidable_of_iff (u = v) (by simp)
  | Except.ok _, Except.error _ => isFalse (by simp)
  | Except.error _, Except.ok _ => isFalse (by simp)

/-- Reading os.environ[k]: the value when k is set, otherwise a KeyError,
modelled as MissingConfiguration. -/
def getEnv (env : Env) (k : String) : Except AppError String :=
  match env k with
  | some v => Except.ok v
  | none => Except.error (AppError.missingConfiguration k)

/-- The remote call client.get_parameter(Name=name, WithDecryption=True):
the decrypted value on success, LookupFailure otherwise. -/
def get_parameter (store : Store) (name : String) : Except AppError String :=
  match store name with
  | some v => Except.ok v
  | none => Except.error (AppError.lookupFailure name)

/-- Result of running a piece of the program: the value or error it
produces, paired with the chronological list of parameter names passed to
get_parameter while it ran. -/
abbrev RunResult := Except AppError String × List String

/-- Embedding of ssm_secret (src/app/app.py lines 7 to 18). The first
parameter is called path in the source and the second prefix; note that
the body never reads path: lines 10, 12 and 17 all read the environment
variable SECRET_SDK instead, so each of the three environment reads of the
source is embedded as its own getEnv call. -/
def ssm_secret (env : Env) (store : Store) (path pfx : String) : RunResult :=
  let prefix_len := pfx.length
  match getEnv env "SECRET_SDK" with -- line 10: os.environ['SECRET_SDK'][0:prefix_len]
  | Except.error e => (Except.error e, [])
  | Except.ok v10 =>
    if v10.take prefix_len = pfx then
      match getEnv env "SECRET_SDK" with -- line 12: os.environ['SECRET_SDK'][prefix_len:]
      | Except.error e => (Except.error e, [])
      | Except.ok v12 =>
        match get_parameter store (v12.drop prefix_len) with -- lines 11 to 15
        | Except.error e => (Except.error e, [v12.drop prefix_len])
        | Except.ok value => (Except.ok value, [v12.drop prefix_len])
    else
      match getEnv env "SECRET_SDK" with -- line 17
      | Except.error e => (Except.error e, [])
      | Except.ok v17 => (Except.ok v17, [])

/-- Embedding of the route handler hello (src/app/app.py lines 20 to 30):
reads SECRET_SDK and SECRET_SDK_PREFIX to call ssm_secret, then reads
SECRET, and concatenates the two sections. Python evaluates the arguments
on lines 24 and 25 before the call, and line 29 only after the call
returns; errors propagate uncaught in source order. -/
def hello (env : Env) (store : Store) : RunResult :=
  match getEnv env "SECRET_SDK" with -- line 24
  | Except.error e => (Except.error e, [])
  | Except.ok sdkArg =>
    match getEnv env "SECRET_SDK_PREFIX" with -- line 25
    | Except.error e => (Except.error e, [])
    | Except.ok pfxArg =>
      match ssm_secret env store sdkArg pfxArg with
      | (Except.error e, t) => (Except.error e, t)
      | (Except.ok secret, t) =>
        let section1 := "SDK decrypted: " ++ secret -- line 27
        match getEnv env "SECRET" with -- line 29
        | Except.error e => (Except.error e, t)
        | Except.ok plain =>
          let section2 := "Ssn-env decrypted: " ++ plain
          (Except.ok (section1 ++ section2), t) -- line 30

/-- The process-wide shared state a resolver call can observe: the
environment and the remote store. The source contains no assignment to
os.environ and no write to the parameter store, so a call leaves this
state unchanged; callResolver makes that explicit. -/
structure World where
  env : Env
  store : Store

/-- One invocation of the resolver against the current process-wide state:
it returns the state (unchanged, since the source only reads it) together
with the result of the call. -/
def callResolver (w : World) (path pfx : String) : World × RunResult :=
  (w, ssm_secret w.env w.store path pfx)

/-- Concrete fixtures used by witnesses and counterexamples. An empty
parameter store: every lookup fails. -/
def store0 : Store := fun _ => none

/-- A store holding one parameter, db/password, with decrypted value
s3cr3t (Scenario B of the spec). -/
def storeDb : Store := fun n => if n = "db/password" then some "s3cr3t" else none

/-- A store holding one parameter named x. -/
def storeX : Store := fun n => if n = "x" then some "xval" else none

/-- An environment whose SECRET_SDK value, envsecret, does not carry the
ssm_sdk:// marker; no other variable is set. -/
def envPlain : Env := fun k => if k = "SECRET_SDK" then some "envsecret" else none

/-- An environment with SECRET_SDK set to the single character a. -/
def envA : Env := fun k => if k = "SECRET_SDK" then some "a" else none

/-- An environment with SECRET_SDK set to the single character b. -/
def envB : Env := fun k => if k = "SECRET_SDK" then some "b" else none

/-- An environment agreeing with envA on SECRET_SDK but differing
everywhere else. -/
def envA2 : Env := fun k => if k = "SECRET_SDK" then some "a" else some "junk"

/-- An environment in which every variable is unset. -/
def envEmpty : Env := fun _ => none

/-- An environment with SECRET_SDK a reference (ssm_sdk://x), the prefix
marker set, and SECRET unset. -/
def envNoSecret : Env := fun k =>
  if k = "SECRET_SDK" then some "ssm_sdk://x"
  else if k = "SECRET_SDK_PREFIX" then some "ssm_sdk://" else none

/-- An environment with SECRET_SDK a reference to a parameter, nope, that
the store does not hold, and the prefix marker set. -/
def envRef : Env := fun k =>
  if k = "SECRET_SDK" then some "ssm_sdk://nope"
  else if k = "SECRET_SDK_PREFIX" then some "ssm_sdk://" else none

/-- An environment with all three variables set and SECRET_SDK a literal. -/
def envFull : Env := fun k =>
  if k = "SECRET_SDK" then some "plain1"
  else if k = "SECRET_SDK_PREFIX" then some "ssm_sdk://"
  else if k = "SECRET" then some "plain2" else none

/-- C1: the claim states that for every v not starting with the prefix,
resolve(v, prefix) returns v unchanged with no remote lookup. The code
contradicts it: ssm_secret ignores its first argument and returns the
SECRET_SDK environment value instead. Evaluated at the failing input: the
argument other does not start with ssm_sdk://, yet the call returns the
environment value envsecret, not other (the lookup list is empty here, but
the returned value already refutes the claim). -/
theorem C1_path_ignored_eval :
    ("other".startsWith "ssm_sdk://") = false ∧
    ssm_secret envPlain store0 "other" "ssm_sdk://" = (Except.ok "envsecret", []) ∧
    "envsecret" ≠ "other" := by
  refine ⟨by decide, by decide, by decide⟩

/-- C2: the claim states that for v = prefix plus name, resolve(v, prefix)
returns the stored decrypted value for name and performs the lookup with
exactly name. Evaluated at the failing input: the store holds db/password
with value s3cr3t and the argument is ssm_sdk:// plus db/password, yet the
code, reading the unprefixed environment value envsecret instead of its
argument, performs no lookup at all and returns envsecret. -/
theorem C2_prefixed_arg_ignored_eval :
    storeDb "db/password" = some "s3cr3t" ∧
    ssm_secret envPlain storeDb ("ssm_sdk://" ++ "db/password") "ssm_sdk://" =
      (Except.ok "envsecret", []) := by
  refine ⟨by decide, by decide⟩

/-- C3: for every request to GET / in which all three environment
variables are set and resolution succeeds with value r, the response body
is the concatenation of the literal SDK decrypted: , the resolved value r,
the literal Ssn-env decrypted: , and the SECRET environment value, in that
order, and the remote lookups are exactly those of the resolution. -/
theorem C3_response_body (env : Env) (store : Store) (sdk pfxv plain r : String)
    (t : List String)
    (hsdk : env "SECRET_SDK" = some sdk)
    (hp : env "SECRET_SDK_PREFIX" = some pfxv)
    (hs : env "SECRET" = some plain)
    (hres : ssm_secret env store sdk pfxv = (Except.ok r, t)) :
    hello env store =
      (Except.ok (("SDK decrypted: " ++ r) ++ ("Ssn-env decrypted: " ++ plain)), t) := by
  simp only [hello, getEnv, hsdk, hp, hs, hres]

/-- Witness for C3 at a concrete input: all three variables set, the
primary value a literal, so it resolves to itself with no lookup. -/
theorem C3_response_body_witness :
    hello envFull store0 =
      (Except.ok (("SDK decrypted: " ++ "plain1") ++ ("Ssn-env decrypted: " ++ "plain2")), []) :=
  C3_response_body envFull store0 "plain1" "ssm_sdk://" "plain2" "plain1" []
    rfl rfl rfl (by decide)

/-- C4: the claim states that whenever any of the three required
environment variables is absent, the request fails with
MissingConfiguration before any remote call. Counterexample: with
SECRET_SDK a reference the store resolves and SECRET unset, the request
does fail with MissingConfiguration for SECRET, but the lookup list is
the nonempty list containing x: the remote call happened first, because
line 29 of the source reads SECRET only after ssm_secret has returned. -/
theorem C4_counterexample :
    envNoSecret "SECRET" = none ∧
    hello envNoSecret storeX =
      (Except.error (AppError.missingConfiguration "SECRET"), ["x"]) := by
  refine ⟨rfl, by decide⟩

/-- C4 amended: if SECRET_SDK is absent, or SECRET_SDK is present and
SECRET_SDK_PREFIX is absent, the request fails with MissingConfiguration
for that variable before any remote call (empty lookup list); if SECRET is
absent while the other two are present and resolution succeeds, the
request still fails with MissingConfiguration for SECRET, but only after
the lookups of the resolution have been performed. -/
theorem C4_missing_env (env : Env) (store : Store) :
    (env "SECRET_SDK" = none →
      hello env store = (Except.error (AppError.missingConfiguration "SECRET_SDK"), []))
    ∧ (∀ sdk, env "SECRET_SDK" = some sdk → env "SECRET_SDK_PREFIX" = none →
      hello env store = (Except.error (AppError.missingConfiguration "SECRET_SDK_PREFIX"), []))
    ∧ (∀ sdk pfxv v t, env "SECRET" = none → env "SECRET_SDK" = some sdk →
      env "SECRET_SDK_PREFIX" = some pfxv →
      ssm_secret env store sdk pfxv = (Except.ok v, t) →
      hello env store = (Except.error (AppError.missingConfiguration "SECRET"), t)) := by
  refine ⟨fun h => ?_, fun sdk h1 h2 => ?_, fun sdk pfxv v t hs h1 h2 hres => ?_⟩
  · simp only [hello, getEnv, h]
  · simp only [hello, getEnv, h1, h2]
  · simp only [hello, getEnv, h1, h2, hres, hs]

/-- Witness for C4 amended: with every variable unset the request fails
with MissingConfiguration for SECRET_SDK and performs no lookup. -/
theorem C4_missing_env_witness :
    hello envEmpty store0 =
      (Except.error (AppError.missingConfiguration "SECRET_SDK"), []) :=
  (C4_missing_env envEmpty store0).1 rfl

/-- C5: when the SECRET_SDK environment value carries the prefix and the
store fails on the stripped name, ssm_secret fails with LookupFailure for
that name after exactly that one lookup, and, when SECRET_SDK_PREFIX holds
that prefix, the same error propagates unchanged to the request boundary:
hello returns it with no partial or default value. -/
theorem C5_lookup_failure (env : Env) (store : Store) (path sdk pfxv : String)
    (hsdk : env "SECRET_SDK" = some sdk)
    (href : sdk.take pfxv.length = pfxv)
    (hmiss : store (sdk.drop pfxv.length) = none) :
    ssm_secret env store path pfxv =
      (Except.error (AppError.lookupFailure (sdk.drop pfxv.length)), [sdk.drop pfxv.length])
    ∧ (env "SECRET_SDK_PREFIX" = some pfxv →
      hello env store =
        (Except.error (AppError.lookupFailure (sdk.drop pfxv.length)), [sdk.drop pfxv.length])) := by
  have hcall : ∀ q : String, ssm_secret env store q pfxv =
      (Except.error (AppError.lookupFailure (sdk.drop pfxv.length)), [sdk.drop pfxv.length]) := by
    intro q
    simp only [ssm_secret, getEnv, get_parameter, hsdk, href, hmiss, if_true]
  refine ⟨hcall path, fun hp => ?_⟩
  simp only [hello, getEnv, hsdk, hp, hcall sdk]

/-- Witness for C5 at a concrete input: the reference names the parameter
nope, which the empty store does not hold; the resolver and the route both
fail with LookupFailure for nope after one lookup. -/
theorem C5_lookup_failure_witness :
    ssm_secret envRef store0 "ssm_sdk://nope" "ssm_sdk://" =
      (Except.error (AppError.lookupFailure "nope"), ["nope"]) ∧
    hello envRef store0 =
      (Except.error (AppError.lookupFailure "nope"), ["nope"]) := by
  have h := C5_lookup_failure envRef store0 "ssm_sdk://nope" "ssm_sdk://nope" "ssm_sdk://"
    rfl (by decide) rfl
  have hdrop : "ssm_sdk://nope".drop ("ssm_sdk://".length) = "nope" := by decide
  rw [hdrop] at h
  exact ⟨h.1, h.2 rfl⟩

/-- C6: the claim states that resolution is a pure function of the pair
(configuration value, prefix) together with the remote-store state.
Counterexample: two calls with the same value x, the same prefix p: and
the same (empty) store disagree, because the result actually depends on
the SECRET_SDK environment variable, which differs (a versus b) between
the two environments. -/
theorem C6_counterexample :
    ssm_secret envA store0 "x" "p:" ≠ ssm_secret envB store0 "x" "p:" := by
  decide

/-- C6 amended: resolution is a pure function of the SECRET_SDK
environment value, the prefix and the store state at the moment of the
call, and it mutates no shared state: two calls against environments that
agree on SECRET_SDK, with the same store and prefix, yield the same
result, and a call returns the process-wide state unchanged. -/
theorem C6_pure_function (env1 env2 : Env) (store : Store) (path pfxv : String)
    (h : env1 "SECRET_SDK" = env2 "SECRET_SDK") :
    ssm_secret env1 store path pfxv = ssm_secret env2 store path pfxv ∧
    (callResolver ⟨env1, store⟩ path pfxv).1 = ⟨env1, store⟩ := by
  refine ⟨?_, rfl⟩
  simp only [ssm_secret, getEnv, h]

/-- Witness for C6 amended at a concrete input: envA and envA2 agree on
SECRET_SDK but differ on every other variable, yet the two calls agree,
and the call leaves the state unchanged. -/
theorem C6_pure_function_witness :
    ssm_secret envA store0 "x" "p:" = ssm_secret envA2 store0 "x" "p:" ∧
    (callResolver ⟨envA, store0⟩ "x" "p:").1 = ⟨envA, store0⟩ :=
  C6_pure_function envA envA2 store0 "x" "p:" rfl

/-- C7: resolution is idempotent: a second call with identical arguments,
run against the state the first call left behind, returns the same result
as the first, because a call leaves the process-wide state (environment
and store) unchanged. -/
theorem C7_idempotent (w : World) (path pfxv : String) :
    (callResolver ((callResolver w path pfxv).1) path pfxv).2 =
      (callResolver w path pfxv).2 ∧
    (callResolver w path pfxv).1 = w :=
  ⟨rfl, rfl⟩

/-- C8: the first parameter of ssm_secret is dead: for any two argument
values and any prefix, the results coincide under the same environment and
store, because the body reads the SECRET_SDK environment variable on lines
10, 12 and 17 instead of its argument. The proof is definitional: the
argument does not occur in the body. -/
theorem C8_dead_parameter (env : Env) (store : Store) (v1 v2 pfxv : String) :
    ssm_secret env store v1 pfxv = ssm_secret env store v2 pfxv :=
  rfl

/-- C9: with the empty prefix the test on line 10 compares the first zero
characters of the SECRET_SDK value with the empty string and always
succeeds, so every configuration value, marker or not, is treated as a
reference: exactly one remote lookup is performed, with the entire
unmodified SECRET_SDK value as the parameter name, and the result of the
call is whatever that lookup returns. -/
theorem C9_empty_prefix (env : Env) (store : Store) (path sdk : String)
    (h : env "SECRET_SDK" = some sdk) :
    ssm_secret env store path "" = (get_parameter store sdk, [sdk]) := by
  simp only [ssm_secret, getEnv, h]
  simp [String.take_eq, String.drop_eq]
  cases get_parameter store sdk <;> rfl

/-- Witness for C9 at a concrete input: with the empty prefix the plain
value envsecret, which carries no marker, is itself sent to the store as a
parameter name; the empty store fails the lookup. -/
theorem C9_empty_prefix_witness :
    ssm_secret envPlain store0 "w" "" =
      (Except.error (AppError.lookupFailure "envsecret"), ["envsecret"]) :=
  C9_empty_prefix envPlain store0 "w" "envsecret" rfl

/-- C10: for a SECRET_SDK value strictly shorter than the prefix the
slice on line 10 is total (Python slicing clamps, as String.take does):
it returns the whole value, which cannot equal the longer prefix, so the
literal branch is taken and the value is returned with no remote lookup. -/
theorem C10_short_value (env : Env) (store : Store) (path pfxv sdk : String)
    (h : env "SECRET_SDK" = some sdk) (hlen : sdk.length < pfxv.length) :
    ssm_secret env store path pfxv = (Except.ok sdk, []) := by
  simp only [ssm_secret, getEnv, h]
  have htake : sdk.take pfxv.length = sdk := by
    rw [String.take_eq, List.take_of_length_le]
    exact Nat.le_of_lt hlen
  rw [htake, if_neg]
  intro hc
  exact absurd (congrArg String.length hc) (Nat.ne_of_lt hlen)

/-- Witness for C10 at a concrete input: envsecret has nine characters,
the prefix ssm_sdk:// has ten; the value comes back unchanged with no
lookup. -/
theorem C10_short_value_witness :
    ssm_secret envPlain store0 "w" "ssm_sdk://" = (Except.ok "envsecret", []) :=
  C10_short_value envPlain store0 "w" "ssm_sdk://" "envsecret" rfl (by decide)

end App
